import Mathlib

/-!
Verification development for the oddworks-brightcove-provider adapter.

The repository bridges a content-catalog orchestration bus to the Brightcove
video API. This file gives a shallow embedding of its request-orchestration
and transformation pipeline and settles the frozen claims about it:

* the schedule-based visibility resolver (`Client.resolveIfScheduled` of the
  lodash/task-queue client variant, `src/unnamed/part_001`);
* the low-level HTTP outcome interpretation (`Client.request`);
* the OAuth token acquisition (`Client.getAccessToken`);
* the playlist fetch orchestrator (`src/lib/fetch-brightcove-playlist.js`);
* the collection transform (`src/lib/default-collection-transform.js`);
* the video transform's image/source shaping (`formatImages`,
  `formatSources` of `lib/default-video-transform.js`);
* the bounded concurrency gate configured in `Client.constructor`.

JavaScript conventions used throughout the embedding: a field that may be
`undefined` is an `Option`; `Date.parse` results are `Option Int`
(milliseconds since the epoch, `none` for `NaN`); JS truthiness of a string
is "present and non-empty".
-/

/-! ## Schedule window and visibility resolver

`Client.resolveIfScheduled(video)` (src/unnamed/part_001, lines 965-987):

    if (_.has(video, 'schedule') && !_.isNull(video.schedule) && !_.isUndefined(video.schedule)) {
      const now = _.now();
      const startsAt = Date.parse(_.get(video, 'schedule.starts_at'));
      const endsAt = Date.parse(_.get(video, 'schedule.ends_at'));
      if ((_.isNumber(endsAt) && _.isNumber(startsAt)) && _.inRange(now, startsAt, endsAt + 1)) {
        return Promise.resolve(null);
      } else if (_.isNumber(startsAt) && now <= startsAt) {
        return Promise.resolve(null);
      }
      return Promise.resolve(video);
    }
    return Promise.resolve(video);

The ambient clock read `_.now()` is threaded as the explicit parameter `now`.
`Date.parse` yields a JS number for every input (`NaN` for absent or
malformed text), modelled as `Option Int` with `none` for `NaN`.
-/

/-- A video's schedule window as the code sees it after `Date.parse`:
`none` stands for `NaN` (bound absent or unparsable). -/
structure ScheduleWindow where
  starts_at : Option Int
  ends_at : Option Int
deriving DecidableEq

/-- The slice of an upstream video record the claims touch: `id`,
`published_at` (as the millisecond value `new Date(...)` yields) and the
optional `schedule`. A `schedule` that is absent, `null` or `undefined` in
JS is `none` here (the code guards with `_.has`, `!_.isNull`,
`!_.isUndefined`, all of which collapse to presence). -/
structure VideoRecord where
  id : String
  published_at : Int
  schedule : Option ScheduleWindow
deriving DecidableEq

/-- lodash `_.isNumber` applied to a `Date.parse` result: `typeof NaN` is
`"number"`, so this is constantly `true` on parse results. Kept so the
translation shows the source's (vacuous) guards. -/
def lodashIsNumber (_x : Option Int) : Bool := true

/-- lodash `toFinite`, as `_.inRange` applies it to its bounds: `NaN`
becomes `0`. -/
def lodashToFinite : Option Int → Int
  | some x => x
  | none => 0

/-- JS `x + 1` on a `Date.parse` result: `NaN + 1` is `NaN`. -/
def jsAddOne : Option Int → Option Int
  | some x => some (x + 1)
  | none => none

/-- lodash `_.inRange n start stop` after `toFinite` on the bounds: checks
`n` is between the bounds, swapping them when `start > stop`, including the
lower and excluding the upper. -/
def lodashInRange (n start stop : Int) : Bool :=
  decide (min start stop ≤ n ∧ n < max start stop)

/-- JS `now <= startsAt` where `startsAt` may be `NaN`: every comparison
with `NaN` is false. -/
def jsLeNaN (now : Int) : Option Int → Bool
  | some v => decide (now ≤ v)
  | none => false

/-- `Client.resolveIfScheduled` with the clock explicit: `none` models the
`null` resolution (record treated as not visible), `some video` the record
passing through. -/
def resolveIfScheduled (video : VideoRecord) (now : Int) : Option VideoRecord :=
  match video.schedule with
  | none => some video
  | some sched =>
    if (lodashIsNumber sched.ends_at && lodashIsNumber sched.starts_at)
        && lodashInRange now (lodashToFinite sched.starts_at)
            (lodashToFinite (jsAddOne sched.ends_at)) then
      none
    else if lodashIsNumber sched.starts_at && jsLeNaN now sched.starts_at then
      none
    else
      some video

/-- A concrete scheduled video: both bounds parsable, window
`starts_at = 100`, `ends_at = 200` (milliseconds). -/
def scheduledVideoC1 : VideoRecord :=
  { id := "V1", published_at := 0,
    schedule := some { starts_at := some 100, ends_at := some 200 } }

/-- C1: the claim says a record with both bounds parsable is visible exactly
when `now` lies in `(starts_at, ends_at]` — in particular visible at
`now = ends_at` and not at `now = ends_at + 1`. The code does the opposite on
this window: evaluated at the failing inputs, `resolveIfScheduled` resolves
`null` (not visible) at `now = 150` and at `now = 200 = ends_at`, and
resolves the video (visible) at `now = 201 = ends_at + 1`. -/
theorem claimC1_code_eval :
    resolveIfScheduled scheduledVideoC1 150 = none ∧
    resolveIfScheduled scheduledVideoC1 200 = none ∧
    resolveIfScheduled scheduledVideoC1 201 = some scheduledVideoC1 := by
  refine ⟨by decide, by decide, by decide⟩

/-- C5: a record with no schedule attached (absent or `null`) is visible at
every evaluation time; a record whose schedule has a parsable `starts_at`
strictly in the future relative to `now` is not visible. -/
theorem claimC5_visibility (v : VideoRecord) (now : Int) :
    (v.schedule = none → resolveIfScheduled v now = some v) ∧
    (∀ sched a, v.schedule = some sched → sched.starts_at = some a → now < a →
      resolveIfScheduled v now = none) := by
  constructor
  · intro h
    simp [resolveIfScheduled, h]
  · intro sched a hs ha hlt
    have hle : jsLeNaN now sched.starts_at = true := by
      simp [ha, jsLeNaN]
      omega
    by_cases hc : ((lodashIsNumber sched.ends_at && lodashIsNumber sched.starts_at)
        && lodashInRange now (lodashToFinite sched.starts_at)
            (lodashToFinite (jsAddOne sched.ends_at))) = true
    · simp [resolveIfScheduled, hs, hc]
    · simp [resolveIfScheduled, hs, hc, hle, lodashIsNumber]

/-! ## Collection transform

`src/lib/default-collection-transform.js`:

    module.exports = (spec, playlist) => {
      return {
        id: `res-brightcove-playlist-$\x7bplaylist.id\x7d`,
        title: playlist.name,
        description: playlist.description,
        images: []
      };
    };
-/

/-- The request-for-resource descriptor the bus hands the provider
(`spec`): channel, type and id identify one fetch. -/
structure CatalogSpec where
  channel : String
  type : String
  id : String
deriving DecidableEq

/-- Upstream playlist record slice used by the transform. -/
structure PlaylistRecord where
  id : String
  name : String
  description : String
deriving DecidableEq

/-- One normalized image (`formatImages` output shape, also the element type
of a collection's always-empty `images`). `url`, `height` and `width` are
copied from the upstream variant as-is (so they may be `undefined`). -/
structure ImageEntity where
  url : Option String
  height : Option Nat
  width : Option Nat
  label : String
deriving DecidableEq

/-- A `relationships.entities.data` element: `{id: <bus resource id>,
type: <spec type without trailing "Spec">}`. -/
structure EntityRef where
  id : String
  type : String
deriving DecidableEq

/-- The normalized collection entity. `relationships` is `none` when the
object carries no `relationships.entities.data` key (the transform output),
`some refs` once the orchestrator assembles it. -/
structure CollectionEntity where
  id : String
  title : String
  description : String
  images : List ImageEntity
  relationships : Option (List EntityRef)
deriving DecidableEq

/-- `default-collection-transform`: the spec argument is ignored by the
source, the playlist maps 1:1. -/
def collectionTransform (_spec : CatalogSpec) (playlist : PlaylistRecord) :
    CollectionEntity :=
  { id := "res-brightcove-playlist-" ++ playlist.id
    title := playlist.name
    description := playlist.description
    images := []
    relationships := none }

/-- C8: `collectionTransform(spec, {id:"P1", name:"N", description:"D"})`
yields exactly `{id:"res-brightcove-playlist-P1", title:"N",
description:"D", images:[]}`; in general the id is the prefixed playlist id,
title and description copy name and description, and images is always empty. -/
theorem claimC8_collection_transform (spec : CatalogSpec) (p : PlaylistRecord) :
    collectionTransform spec { id := "P1", name := "N", description := "D" } =
      { id := "res-brightcove-playlist-P1", title := "N", description := "D",
        images := [], relationships := none } ∧
    (collectionTransform spec p).id = "res-brightcove-playlist-" ++ p.id ∧
    (collectionTransform spec p).title = p.name ∧
    (collectionTransform spec p).description = p.description ∧
    (collectionTransform spec p).images = [] :=
  ⟨rfl, rfl, rfl, rfl, rfl⟩

/-- C10: the output of `collectionTransform` does not depend on its spec
argument. -/
theorem claimC10_spec_independent (s1 s2 : CatalogSpec) (p : PlaylistRecord) :
    collectionTransform s1 p = collectionTransform s2 p := rfl

/-! ## Low-level request outcome interpretation

`Client.request(params)` (src/unnamed/part_001, lines 989-1035) interprets
the transport callback `(err, res, body)`:

* transport error => reject with it;
* status 404 => resolve `null`;
* status not matching `/20\d/` => reject "unexpected status code";
* status 204 => resolve `\x7b\x7d`;
* JSON content-type with a string body => `JSON.parse`, rejecting on parse
  failure; JSON content-type without a string body => reject "empty JSON
  body"; non-JSON content-type => reject "expects content-type ...".

`JSON.parse` is a platform builtin, abstracted as the `parseJson`
parameter (`none` = the parse throws; its error message is not modelled).
-/

/-- The transport response the callback sees: status code, the
`content-type` header (`""` when absent) and the body (`none` when the
`request` library passed no string body). -/
structure HttpResponseModel where
  statusCode : Nat
  contentType : String
  body : Option String
deriving DecidableEq

/-- How one `Client.request` promise settles. -/
inductive RequestOutcome (β : Type) where
  | rejected (message : String)
  | resolvedNull
  | resolvedEmpty
  | resolvedBody (value : β)
deriving DecidableEq

/-- `Client.STATUS_CODE_20X_MATCHER`, the unanchored regex `/20\d/` tested
against the status code's decimal rendering: some position starts with
`'2'`, `'0'`, then a digit. -/
def status20x (n : Nat) : Bool :=
  (toString n).toList.tails.any fun t =>
    match t with
    | '2' :: '0' :: c :: _ => c.isDigit
    | _ => false

/-- An anchored regex literal test (`/^needle/`), as a char-list prefix
check so concrete witnesses evaluate inside the kernel. -/
def strStartsWith (needle hay : String) : Bool :=
  needle.toList.isPrefixOf hay.toList

/-- An unanchored regex literal test: some suffix of the haystack starts
with the needle. -/
def strContainsSub (needle hay : List Char) : Bool :=
  hay.tails.any fun t => needle.isPrefixOf t

/-- `Client.CONTENT_TYPE_MATCHER`, the anchored regex
`/^application\/json/`. -/
def contentTypeIsJson (ct : String) : Bool :=
  strStartsWith "application/json" ct

/-- `Client.request` as a function of the callback's inputs. -/
def clientRequest {β : Type} (parseJson : String → Option β)
    (transportError : Option String) (res : HttpResponseModel) :
    RequestOutcome β :=
  match transportError with
  | some e => .rejected e
  | none =>
    if res.statusCode = 404 then .resolvedNull
    else if !status20x res.statusCode then
      .rejected ("brightcove client unexpected status code " ++ toString res.statusCode)
    else if res.statusCode = 204 then .resolvedEmpty
    else
      match res.body with
      | some b =>
        if contentTypeIsJson res.contentType then
          match parseJson b with
          | some v => .resolvedBody v
          | none => .rejected "brightcove client JSON parsing error"
        else .rejected "brightcove client expects content-type to be application/json"
      | none =>
        if contentTypeIsJson res.contentType then
          .rejected "brightcove client received an empty JSON body"
        else .rejected "brightcove client expects content-type to be application/json"

/-! ## Playlist fetch orchestrator

`src/lib/fetch-brightcove-playlist.js`. The client collaborator is
abstracted by the responses its two calls resolve with
(`PlaylistClientModel`), the bus `sendCommand` collaborator by a response
function, and the `bus.broadcast` effect by an accumulated event list. -/

/-- The channel record (tenant scope); only `channel.id` feeds the child
specs. -/
structure ChannelRecord where
  id : String
deriving DecidableEq

/-- The orchestrator's argument object (`args`), minus the partial
`collection`: the transform overwrites every modelled collection field, and
the final assembly always overwrites `relationships.entities`. -/
structure PlaylistFetchArgs where
  channel : ChannelRecord
  spec : CatalogSpec
  playlistId : String
  skipScheduleCheck : Bool
deriving DecidableEq

/-- What the upstream client resolves with inside one playlist fetch:
`getPlaylist` (`none` = upstream 404 mapped to `null`) and
`getVideosByPlaylist`. -/
structure PlaylistClientModel where
  playlist : Option PlaylistRecord
  videos : List VideoRecord
deriving DecidableEq

/-- The domain error objects the orchestrators construct (`new Error(msg)`
with a bolted-on `.code`). -/
structure DomainError where
  message : String
  code : String
deriving DecidableEq

/-- One `bus.broadcast(\x7blevel: 'error'\x7d, \x7bspec, error, code, message\x7d)`
event. -/
structure BroadcastEvent where
  level : String
  spec : CatalogSpec
  error : DomainError
  code : String
  message : String
deriving DecidableEq

/-- What `bus.sendCommand(\x7brole:'catalog', cmd:'setItemSpec'\x7d, spec)`
resolves with: `\x7bresource, type\x7d`. -/
structure CmdResult where
  resource : String
  type : String
deriving DecidableEq

/-- One child video spec the orchestrator submits to the bus. `id` is set
only when `video.id` is truthy (non-empty). -/
structure ChildSpec where
  channel : String
  type : String
  source : String
  video : VideoRecord
  id : Option String
deriving DecidableEq

/-- The orchestrator's sort `videos.sort((a, b) => bDate - aDate)`: newest
first by `published_at`. `Array#sort` (V8) is a stable sort, and a stable
descending sort's output is uniquely determined by the key order, so the
stable `List.insertionSort` embeds it exactly. -/
def sortNewestFirst (videos : List VideoRecord) : List VideoRecord :=
  List.insertionSort (fun a b => b.published_at ≤ a.published_at) videos

/-- The child-spec construction inside the orchestrator's `.map`. -/
def makeChildSpec (channelId : String) (video : VideoRecord) : ChildSpec :=
  { channel := channelId
    type := "videoSpec"
    source := "brightcove-video"
    video := video
    id := if video.id = "" then none
          else some ("spec-brightcove-video-" ++ video.id) }

/-- `spec.type.replace(/Spec$/, '')`: drop a trailing `"Spec"` when
present (char-list form of the suffix check so it evaluates in the
kernel). -/
def stripSpecSuffix (s : String) : String :=
  if List.isPrefixOf "Spec".toList.reverse s.toList.reverse then
    String.mk (s.toList.take (s.toList.length - 4))
  else s

/-- One `relationships.entities.data` element from one command result. -/
def entityRefOf (r : CmdResult) : EntityRef :=
  { id := r.resource, type := stripSpecSuffix r.type }

/-- The ordered child-spec submission list of one playlist fetch: nothing
when the video list is empty (`_.isEmpty`), else the videos sorted newest
first, each mapped to its child spec. -/
def childSpecsOf (client : PlaylistClientModel) (args : PlaylistFetchArgs) :
    List ChildSpec :=
  if client.videos.isEmpty then []
  else (sortNewestFirst client.videos).map (makeChildSpec args.channel.id)

/-- The `PLAYLIST_NOT_FOUND` domain error. -/
def playlistNotFoundError (playlistId : String) : DomainError :=
  { message := "Playlist not found for id \"" ++ playlistId ++ "\""
    code := "PLAYLIST_NOT_FOUND" }

/-- `fetch-brightcove-playlist` as a function of the collaborators'
responses: the settled operation (`Except`) paired with the broadcast
events emitted. On upstream absence the orchestrator broadcasts one
error-level event and rejects; on presence it transforms the playlist,
fans out the child specs in newest-first order, and assembles
`relationships.entities.data` from the command results in submission
order (bluebird `Promise.all` preserves index order; its operational
order-independence is proved separately via `settleRun`). -/
def fetchBrightcovePlaylist (client : PlaylistClientModel)
    (sendCommand : ChildSpec → CmdResult)
    (transform : CatalogSpec → PlaylistRecord → CollectionEntity)
    (args : PlaylistFetchArgs) :
    Except DomainError CollectionEntity × List BroadcastEvent :=
  match client.playlist with
  | none =>
    let error := playlistNotFoundError args.playlistId
    (Except.error error,
      [{ level := "error", spec := args.spec, error := error,
         code := error.code, message := "playlist not found" }])
  | some playlist =>
    let collection := transform args.spec playlist
    let specs := childSpecsOf client args
    let refs := (specs.map sendCommand).map entityRefOf
    (Except.ok { collection with relationships := some refs }, [])

/-! ## Operational model of the parallel await

The child-spec commands may settle in any order; bluebird's `Promise.all`
writes each settling promise's value into the slot of its submission index
and hands back the slots in index order once all have settled. `settleRun`
runs one completion schedule (`order` lists submission indices in the order
they settle); `collectAll` reads the slots afterwards. -/

/-- One settle event: command `i` writes its result into slot `i`. -/
def settleStep (results : List α) (st : Nat → Option α) (i : Nat) :
    Nat → Option α :=
  fun j => if j = i then results.get? i else st j

/-- Slot state after the whole completion schedule has run. -/
def settleRun (results : List α) (order : List Nat) : Nat → Option α :=
  order.foldl (settleStep results) fun _ => none

/-- The slots read back in submission-index order. -/
def collectAll (results : List α) (order : List Nat) : List (Option α) :=
  (List.range results.length).map (settleRun results order)

theorem settleRun_foldl (results : List α) (order : List Nat)
    (st : Nat → Option α) (j : Nat) :
    order.foldl (settleStep results) st j =
      if j ∈ order then results.get? j else st j := by
  induction order generalizing st with
  | nil => simp
  | cons i rest ih =>
    simp only [List.foldl_cons, ih, List.mem_cons]
    by_cases hji : j = i
    · subst hji
      by_cases hjr : j ∈ rest <;> simp [settleStep, hjr]
    · by_cases hjr : j ∈ rest <;> simp [settleStep, hji, hjr]

/-- A completed schedule (every index settled) fills every slot with the
submission-order result, whatever the completion order was. -/
theorem collectAll_eq (results : List α) (order : List Nat)
    (h : ∀ j, j < results.length → j ∈ order) :
    collectAll results order = results.map some := by
  apply List.ext_getElem
  · simp [collectAll]
  · intro i h1 h2
    have hlen : i < results.length := by simpa [collectAll] using h1
    simp [collectAll, settleRun, settleRun_foldl, h i hlen,
      List.getElem?_eq_getElem hlen]

/-- C2: with the upstream fetch resolving absence (`getPlaylist` = `null`),
the orchestrator rejects with message `Playlist not found for id "<id>"`
and broadcasts exactly one error-level event carrying
`code: "PLAYLIST_NOT_FOUND"` and the original spec unchanged; and
`Client.request` maps an upstream 404 to the `null` absence marker, never
to an error, whatever the body parser does. -/
theorem claimC2_playlist_not_found (client : PlaylistClientModel)
    (sendCommand : ChildSpec → CmdResult)
    (transform : CatalogSpec → PlaylistRecord → CollectionEntity)
    (args : PlaylistFetchArgs) (β : Type) (parseJson : String → Option β)
    (res : HttpResponseModel)
    (habsent : client.playlist = none) (h404 : res.statusCode = 404) :
    fetchBrightcovePlaylist client sendCommand transform args =
      (Except.error (playlistNotFoundError args.playlistId),
        [{ level := "error", spec := args.spec,
           error := playlistNotFoundError args.playlistId,
           code := "PLAYLIST_NOT_FOUND", message := "playlist not found" }]) ∧
    (playlistNotFoundError args.playlistId).message =
      "Playlist not found for id \"" ++ args.playlistId ++ "\"" ∧
    clientRequest parseJson none res = RequestOutcome.resolvedNull := by
  refine ⟨?_, rfl, ?_⟩
  · simp [fetchBrightcovePlaylist, habsent, playlistNotFoundError]
  · simp [clientRequest, h404]

/-- The client responses of the C2 witness: upstream absence. -/
def exClientAbsent : PlaylistClientModel := { playlist := none, videos := [] }

/-- The bus command collaborator used by the concrete examples: echoes the
child's video id into a resource id (as the repository's own test bus mock
does). -/
def exSendCommand (s : ChildSpec) : CmdResult :=
  { resource := "res-brightcove-video-" ++ s.video.id, type := "videoSpec" }

/-- The fetch arguments of the C2 witness: playlist id `12345`. -/
def exArgsC2 : PlaylistFetchArgs :=
  { channel := { id := "fake-channel" }
    spec := { channel := "fake-channel", type := "collectionSpec",
              id := "spec-brightcove-playlist-12345" }
    playlistId := "12345"
    skipScheduleCheck := false }

/-- C2 witness: the not-found path evaluated at a concrete absent playlist. -/
theorem claimC2_witness :
    fetchBrightcovePlaylist exClientAbsent exSendCommand collectionTransform exArgsC2 =
      (Except.error (playlistNotFoundError "12345"),
        [{ level := "error", spec := exArgsC2.spec,
           error := playlistNotFoundError "12345",
           code := "PLAYLIST_NOT_FOUND", message := "playlist not found" }]) :=
  (claimC2_playlist_not_found exClientAbsent exSendCommand collectionTransform
    exArgsC2 Nat (fun _ => none) { statusCode := 404, contentType := "", body := none }
    rfl rfl).1

/-- C3: on a successful playlist fetch the child specs are the videos
sorted newest-to-oldest by `published_at` (a permutation of the video list,
pairwise descending); the returned collection's
`relationships.entities.data` lists the per-child command results in that
submission order; the operational parallel await yields the submission-order
results under every completed settle schedule; and an empty video list
yields the empty sequence (present, not absent). -/
theorem claimC3_playlist_order (client : PlaylistClientModel)
    (sendCommand : ChildSpec → CmdResult)
    (transform : CatalogSpec → PlaylistRecord → CollectionEntity)
    (args : PlaylistFetchArgs) (p : PlaylistRecord) (order : List Nat)
    (hp : client.playlist = some p)
    (horder : ∀ j, j < (childSpecsOf client args).length → j ∈ order) :
    (fetchBrightcovePlaylist client sendCommand transform args).1 =
      Except.ok { transform args.spec p with
        relationships :=
          some ((childSpecsOf client args).map fun s => entityRefOf (sendCommand s)) } ∧
    (sortNewestFirst client.videos).Perm client.videos ∧
    (sortNewestFirst client.videos).Pairwise
      (fun a b => b.published_at ≤ a.published_at) ∧
    collectAll ((childSpecsOf client args).map sendCommand) order =
      ((childSpecsOf client args).map sendCommand).map some ∧
    (client.videos = [] →
      (fetchBrightcovePlaylist client sendCommand transform args).1 =
        Except.ok { transform args.spec p with relationships := some [] }) := by
  have hmain : (fetchBrightcovePlaylist client sendCommand transform args).1 =
      Except.ok { transform args.spec p with
        relationships :=
          some ((childSpecsOf client args).map fun s => entityRefOf (sendCommand s)) } := by
    simp [fetchBrightcovePlaylist, hp, List.map_map, Function.comp]
  refine ⟨hmain, List.perm_insertionSort _ _, ?_, ?_, ?_⟩
  · haveI : IsTotal VideoRecord (fun a b => b.published_at ≤ a.published_at) :=
      ⟨fun a b => le_total b.published_at a.published_at⟩
    haveI : IsTrans VideoRecord (fun a b => b.published_at ≤ a.published_at) :=
      ⟨fun _ _ _ h1 h2 => le_trans h2 h1⟩
    exact List.sorted_insertionSort _ client.videos
  · exact collectAll_eq _ order (by simpa using horder)
  · intro hempty
    rw [hmain]
    simp [childSpecsOf, hempty]

/-- The client responses of the C3 witness: present playlist `0000000000000`
and three child videos arriving unsorted, dated so that newest-to-oldest is
V1, V3, V2 (as in the repository's playlist fixture). -/
def exClientFound : PlaylistClientModel :=
  { playlist := some { id := "0000000000000", name := "N", description := "D" }
    videos :=
      [ { id := "V222222222222", published_at := 100, schedule := none },
        { id := "V111111111111", published_at := 300, schedule := none },
        { id := "V333333333333", published_at := 200, schedule := none } ] }

/-- The fetch arguments of the C3 witness. -/
def exArgsC3 : PlaylistFetchArgs :=
  { channel := { id := "fake-channel" }
    spec := { channel := "fake-channel", type := "collectionSpec",
              id := "spec-brightcove-playlist-0000000000000" }
    playlistId := "0000000000000"
    skipScheduleCheck := false }

/-- C3 witness: evaluated at the concrete three-video playlist with the
out-of-submission settle schedule `[1, 2, 0]`, the resulting
`relationships.entities.data` is V1, V3, V2 — newest to oldest. -/
theorem claimC3_witness :
    (fetchBrightcovePlaylist exClientFound exSendCommand collectionTransform exArgsC3).1 =
      Except.ok
        { id := "res-brightcove-playlist-0000000000000", title := "N",
          description := "D", images := [],
          relationships := some
            [ { id := "res-brightcove-video-V111111111111", type := "video" },
              { id := "res-brightcove-video-V333333333333", type := "video" },
              { id := "res-brightcove-video-V222222222222", type := "video" } ] } :=
  ((claimC3_playlist_order exClientFound exSendCommand collectionTransform
      exArgsC3 { id := "0000000000000", name := "N", description := "D" }
      [1, 2, 0] rfl (by decide)).1).trans (congrArg Except.ok (by decide))

/-! ## Video transform: image and source shaping

`lib/default-video-transform.js` (`formatImages`, `formatSources`), with

    const HTTPS_MATCHER = /^https/;
    const MP4_MATCHER = /MP4/i;
    const TYPE_MATCHER = /application\/x-mpegURL/;

JS regex `test` coerces `undefined` to the string `"undefined"`, which
matches none of the three patterns, so an absent field tests false. -/

/-- One raw upstream media rendition (`SourceVariant`): every field may be
absent. -/
structure SourceVariant where
  src : Option String
  type : Option String
  container : Option String
  width : Option Nat
  height : Option Nat
  encoding_rate : Option Nat
  asset_id : Option String
deriving DecidableEq

/-- A JS label value: `getLabel` returns a template string or the numeric
positional index. -/
inductive SourceLabel where
  | str (s : String)
  | num (n : Nat)
deriving DecidableEq

/-- One normalized media source (`formatSources` output element). `url`
copies `source.src` (always present after the secure filter). -/
structure SourceEntity where
  url : Option String
  container : Option String
  mimeType : String
  width : Nat
  height : Nat
  maxBitrate : Nat
  label : SourceLabel
deriving DecidableEq

/-- `HTTPS_MATCHER.test(x)` for an optional string: `undefined` tests
false, a string tests by prefix. -/
def optSecure : Option String → Bool
  | some u => strStartsWith "https" u
  | none => false

/-- `MP4_MATCHER.test(source.container)`: case-insensitive unanchored
`MP4`, false on `undefined`. -/
def mp4Matches : Option String → Bool
  | some s => strContainsSub ['m', 'p', '4'] (s.toList.map Char.toLower)
  | none => false

/-- `TYPE_MATCHER.test(source.type)`: unanchored `application/x-mpegURL`,
false on `undefined`. -/
def hlsMatches : Option String → Bool
  | some s => strContainsSub "application/x-mpegURL".toList s.toList
  | none => false

/-- JS truthiness of an optional string: present and non-empty. -/
def jsTruthyStr : Option String → Bool
  | some s => decide (s ≠ "")
  | none => false

/-- JS template interpolation of an optional number: `undefined` renders as
`"undefined"`. -/
def jsNumShow : Option Nat → String
  | some n => toString n
  | none => "undefined"

/-- `getMimeType` inside `formatSources`: the upstream `type` when truthy,
else `"video/mp4"` for an MP4 container, else `""`. -/
def getMimeType (source : SourceVariant) : String :=
  if jsTruthyStr source.type then source.type.getD ""
  else if mp4Matches source.container then "video/mp4"
  else ""

/-- `getLabel` inside `formatSources`: `mp4-<width>x<height>` for MP4
containers, `"hls"` for HLS-typed sources, else the truthy `asset_id` or
the positional index. -/
def getLabel (source : SourceVariant) (index : Nat) : SourceLabel :=
  if mp4Matches source.container then
    .str ("mp4-" ++ jsNumShow source.width ++ "x" ++ jsNumShow source.height)
  else if hlsMatches source.type then .str "hls"
  else
    match source.asset_id with
    | some a => if a = "" then .num index else .str a
    | none => .num index

/-- The body of `formatSources`' `.map((source, index) => ...)`: numeric
fields default to `0` via `|| 0`. -/
def sourceEntityOf (index : Nat) (source : SourceVariant) : SourceEntity :=
  { url := source.src
    container := source.container
    mimeType := getMimeType source
    width := source.width.getD 0
    height := source.height.getD 0
    maxBitrate := source.encoding_rate.getD 0
    label := getLabel source index }

/-- `formatSources`' filter: `typeof source.src !== 'undefined' &&
HTTPS_MATCHER.test(source.src)`. -/
def sourceSecure (s : SourceVariant) : Bool :=
  s.src.isSome && optSecure s.src

/-- JS `Array#map`'s `(element, index)` callback over a list, indices from
`i0`. -/
def mapWithIndexFrom (f : Nat → α → β) : Nat → List α → List β
  | _, [] => []
  | i, a :: as => f i a :: mapWithIndexFrom f (i + 1) as

/-- JS `Array#map` with the index argument. -/
def mapWithIndex (f : Nat → α → β) (l : List α) : List β :=
  mapWithIndexFrom f 0 l

/-- `formatSources`: secure filter, then the index-aware map (indices over
the filtered array). -/
def formatSources (sources : List SourceVariant) : List SourceEntity :=
  mapWithIndex sourceEntityOf (sources.filter sourceSecure)

/-- One raw image variant from `poster.sources` / `thumbnail.sources`. -/
structure ImageVariant where
  src : Option String
  width : Option Nat
  height : Option Nat
deriving DecidableEq

/-- `video.images.poster` / `.thumbnail`: an object whose `sources` array
may be absent. -/
structure ImageSet where
  sources : Option (List ImageVariant)
deriving DecidableEq

/-- `video.images`: the poster and thumbnail sets, each possibly absent. -/
structure VideoImages where
  poster : Option ImageSet
  thumbnail : Option ImageSet
deriving DecidableEq

/-- `(videoImages.poster.sources || [])`: `video.images.poster || []` then
`.sources || []` collapse to the source list when present, else `[]`. -/
def imageSetSources : Option ImageSet → List ImageVariant
  | some set => set.sources.getD []
  | none => []

/-- The push body inside `formatImages`: `url`, `height`, `width` copied
as-is, label `"<kind>-<width>x<height>"`. -/
def imageEntityOf (kind : String) (image : ImageVariant) : ImageEntity :=
  { url := image.src
    height := image.height
    width := image.width
    label := kind ++ "-" ++ jsNumShow image.width ++ "x" ++ jsNumShow image.height }

/-- `formatImages`: poster survivors then thumbnail survivors, each
filtered to secure-transport `src` and mapped to the entity shape. -/
def formatImages (video : VideoImages) : List ImageEntity :=
  ((imageSetSources video.poster).filter fun i => optSecure i.src).map
      (imageEntityOf "poster")
    ++ ((imageSetSources video.thumbnail).filter fun i => optSecure i.src).map
      (imageEntityOf "thumbnail")

theorem mapWithIndexFrom_map (f : Nat → α → β) (g : β → γ) (h : α → γ)
    (hfg : ∀ i a, g (f i a) = h a) :
    ∀ (i : Nat) (l : List α), (mapWithIndexFrom f i l).map g = l.map h := by
  intro i l
  induction l generalizing i with
  | nil => rfl
  | cons a as ih => simp [mapWithIndexFrom, hfg, ih]

/-- C6: for a secure-src source with container matching MP4 and no `type`,
the mapped mimeType is `"video/mp4"` and the label is
`"mp4-<width>x<height>"`; for a secure-src source whose `type` matches the
HLS pattern and whose container is not MP4, the label is `"hls"` and
`width`, `height`, `maxBitrate` are `0` when the input fields are absent.
`formatSources` applied to such a single source keeps it and maps it at
index 0. -/
theorem claimC6_source_mapping (s : SourceVariant) (u : String)
    (hsrc : s.src = some u) (hsec : strStartsWith "https" u = true) :
    formatSources [s] = [sourceEntityOf 0 s] ∧
    (s.type = none → mp4Matches s.container = true →
      (sourceEntityOf 0 s).mimeType = "video/mp4" ∧
      (sourceEntityOf 0 s).label =
        SourceLabel.str ("mp4-" ++ jsNumShow s.width ++ "x" ++ jsNumShow s.height)) ∧
    (mp4Matches s.container = false → hlsMatches s.type = true →
      (sourceEntityOf 0 s).label = SourceLabel.str "hls" ∧
      (s.width = none → (sourceEntityOf 0 s).width = 0) ∧
      (s.height = none → (sourceEntityOf 0 s).height = 0) ∧
      (s.encoding_rate = none → (sourceEntityOf 0 s).maxBitrate = 0)) := by
  refine ⟨?_, ?_, ?_⟩
  · simp [formatSources, List.filter, sourceSecure, hsrc, optSecure, hsec,
      mapWithIndex, mapWithIndexFrom]
  · intro htype hmp4
    constructor
    · simp [sourceEntityOf, getMimeType, htype, jsTruthyStr, hmp4]
    · simp [sourceEntityOf, getLabel, hmp4]
  · intro hmp4 hhls
    refine ⟨?_, ?_, ?_, ?_⟩
    · simp [sourceEntityOf, getLabel, hmp4, hhls]
    · intro hw; simp [sourceEntityOf, hw]
    · intro hh; simp [sourceEntityOf, hh]
    · intro hr; simp [sourceEntityOf, hr]

/-- The HLS rendition of the repository's video-sources fixture shape:
secure `src`, HLS `type`, non-MP4 container, no dimensions and no
encoding rate. -/
def exHlsSource : SourceVariant :=
  { src := some "https://x.example/master.m3u8"
    type := some "application/x-mpegURL"
    container := some "M2TS"
    width := none, height := none, encoding_rate := none, asset_id := none }

/-- C6 witness: the HLS mapping evaluated at the concrete fixture-shaped
source — kept by `formatSources`, labelled `"hls"`, dimensions and bitrate
zero. -/
theorem claimC6_witness :
    formatSources [exHlsSource] = [sourceEntityOf 0 exHlsSource] ∧
    (sourceEntityOf 0 exHlsSource).label = SourceLabel.str "hls" ∧
    (sourceEntityOf 0 exHlsSource).width = 0 ∧
    (sourceEntityOf 0 exHlsSource).height = 0 ∧
    (sourceEntityOf 0 exHlsSource).maxBitrate = 0 := by
  have h := claimC6_source_mapping exHlsSource "https://x.example/master.m3u8"
    rfl (by decide)
  have h3 := h.2.2 (by decide) (by decide)
  exact ⟨h.1, h3.1, h3.2.1 rfl, h3.2.2.1 rfl, h3.2.2.2 rfl⟩

/-- C7: the images output is exactly the poster entries then the thumbnail
entries whose `src` starts with the secure scheme, in their original
relative order (witnessed by the projection to the copied `url` field);
the sources output is exactly the entries with a defined, secure `src`, in
order; and every surviving output is secure. -/
theorem claimC7_secure_filtering (v : VideoImages) (sources : List SourceVariant) :
    (formatImages v).map ImageEntity.url =
      ((imageSetSources v.poster).filter fun i => optSecure i.src).map ImageVariant.src
        ++ ((imageSetSources v.thumbnail).filter fun i => optSecure i.src).map
          ImageVariant.src ∧
    (formatSources sources).map SourceEntity.url =
      (sources.filter sourceSecure).map SourceVariant.src ∧
    (formatImages v).all (fun e => optSecure e.url) = true ∧
    (formatSources sources).all (fun e => optSecure e.url) = true := by
  have himg : (formatImages v).map ImageEntity.url =
      ((imageSetSources v.poster).filter fun i => optSecure i.src).map ImageVariant.src
        ++ ((imageSetSources v.thumbnail).filter fun i => optSecure i.src).map
          ImageVariant.src := by
    have hcomp : ∀ k : String, ImageEntity.url ∘ imageEntityOf k = ImageVariant.src := by
      intro k
      funext i
      rfl
    simp [formatImages, List.map_map, hcomp]
  have hsrcs : (formatSources sources).map SourceEntity.url =
      (sources.filter sourceSecure).map SourceVariant.src := by
    simpa [formatSources, mapWithIndex] using
      mapWithIndexFrom_map sourceEntityOf SourceEntity.url SourceVariant.src
        (fun _ _ => rfl) 0 (sources.filter sourceSecure)
  refine ⟨himg, hsrcs, ?_, ?_⟩
  · rw [List.all_eq_true]
    intro e he
    have : e.url ∈ (formatImages v).map ImageEntity.url := List.mem_map_of_mem _ he
    rw [himg] at this
    rcases List.mem_append.mp this with hmem | hmem <;>
    · obtain ⟨i, hi, hieq⟩ := List.mem_map.mp hmem
      obtain ⟨-, hsec⟩ := List.mem_filter.mp hi
      rw [← hieq]
      exact hsec
  · rw [List.all_eq_true]
    intro e he
    have : e.url ∈ (formatSources sources).map SourceEntity.url :=
      List.mem_map_of_mem _ he
    rw [hsrcs] at this
    obtain ⟨i, hi, hieq⟩ := List.mem_map.mp this
    obtain ⟨-, hsec⟩ := List.mem_filter.mp hi
    rw [← hieq]
    have := Bool.and_elim_right hsec
    exact this

/-! ## Authorization module: access-token acquisition

`Client.getAccessToken(args)` of the lodash client (src/unnamed/part_001,
lines 563-596):

    const accessToken = args.accessToken;
    if (_.isString(accessToken)) \x7b
      return Promise.resolve(\x7baccess_token: accessToken\x7d);
    \x7d
    const clientId = _.get(args, 'clientId', this.clientId);
    const clientSecret = _.get(args, 'clientSecret', this.clientSecret);
    if (!_.isString(clientId)) \x7b throw new Error('A clientId string is required for getAccessToken()'); \x7d
    if (!_.isString(clientSecret)) \x7b throw new Error('A clientSecret string is required for getAccessToken()'); \x7d
    const params = \x7bmethod: 'POST', baseUrl: Client.OAUTH_BASE_URL, path: '/access_token',
      contentType: 'application/x-www-form-urlencoded',
      authorization: this.getBasicAuthorization(clientId, clientSecret),
      query: \x7bgrant_type: 'client_credentials'\x7d\x7d;
    return this.makeRequest(params);

String-valued arguments are `Option String` (`none` = absent/undefined);
`_.isString` is presence. The outcome distinguishes the immediate
resolution (no network request), the synchronous throw, and handing the
built params to `makeRequest` (the pending token request). -/

/-- The RFC 4648 base64 alphabet. -/
def base64Table : List Char :=
  "ABCDEFGHIJKLMNOPQRSTUVWXYZabcdefghijklmnopqrstuvwxyz0123456789+/".toList

/-- One base64 digit. -/
def base64Digit (n : Nat) : Char := base64Table.getD n 'A'

/-- Standard base64 of a byte list, three bytes to four digits with `=`
padding (Node `Buffer#toString('base64')`). -/
def base64Chunks : List Nat → String
  | [] => ""
  | [a] => String.mk [base64Digit (a / 4), base64Digit (a % 4 * 16), '=', '=']
  | [a, b] =>
    String.mk [base64Digit (a / 4), base64Digit (a % 4 * 16 + b / 16),
      base64Digit (b % 16 * 4), '=']
  | a :: b :: c :: rest =>
    String.mk [base64Digit (a / 4), base64Digit (a % 4 * 16 + b / 16),
      base64Digit (b % 16 * 4 + c / 64), base64Digit (c % 64)]
      ++ base64Chunks rest

/-- `new Buffer(s).toString('base64')`: base64 of the UTF-8 bytes. -/
def base64Encode (s : String) : String :=
  base64Chunks (s.toUTF8.toList.map UInt8.toNat)

/-- `Client.getBasicAuthorization(clientId, clientSecret)`. -/
def getBasicAuthorization (clientId clientSecret : String) : String :=
  "Basic " ++ base64Encode (clientId ++ ":" ++ clientSecret)

/-- `Client.OAUTH_BASE_URL`. -/
def OAUTH_BASE_URL : String := "https://oauth.brightcove.com/v3"

/-- Client-level default credentials (`this.clientId`, `this.clientSecret`),
each possibly absent. -/
structure ClientConfig where
  clientId : Option String
  clientSecret : Option String
deriving DecidableEq

/-- The `args` of one `getAccessToken` call. -/
structure TokenArgs where
  accessToken : Option String
  clientId : Option String
  clientSecret : Option String
deriving DecidableEq

/-- The request descriptor handed to `makeRequest`. -/
structure RequestParams where
  method : String
  baseUrl : String
  path : String
  contentType : String
  authorization : String
  query : List (String × String)
deriving DecidableEq

/-- How one `getAccessToken` call comes out: immediate resolution with the
token (no network request), a synchronous throw to the immediate caller, or
the token request being issued with the built params. -/
inductive TokenResult where
  | resolved (access_token : String)
  | thrown (message : String)
  | requested (params : RequestParams)
deriving DecidableEq

/-- lodash `_.get(args, field, fallback)`: the fallback only when the field
resolves to `undefined`. -/
def lodashGet (field fallback : Option String) : Option String :=
  match field with
  | some v => some v
  | none => fallback

/-- The params object `getAccessToken` builds for the token request. -/
def accessTokenParams (clientId clientSecret : String) : RequestParams :=
  { method := "POST"
    baseUrl := OAUTH_BASE_URL
    path := "/access_token"
    contentType := "application/x-www-form-urlencoded"
    authorization := getBasicAuthorization clientId clientSecret
    query := [("grant_type", "client_credentials")] }

/-- `Client.getAccessToken` as a function of the client defaults and the
call arguments. -/
def getAccessToken (c : ClientConfig) (args : TokenArgs) : TokenResult :=
  match args.accessToken with
  | some tok => .resolved tok
  | none =>
    match lodashGet args.clientId c.clientId with
    | none => .thrown "A clientId string is required for getAccessToken()"
    | some cid =>
      match lodashGet args.clientSecret c.clientSecret with
      | none => .thrown "A clientSecret string is required for getAccessToken()"
      | some csec => .requested (accessTokenParams cid csec)

/-- C4 (amended): an `accessToken` string resolves immediately with that
token and issues no request; otherwise the call throws a configuration
error synchronously exactly when `clientId` or `clientSecret` is *not a
string* (absent) after falling back to the client-level defaults — a
present-but-empty string is accepted — and with both strings present it
issues the client-credentials token request. -/
theorem claimC4_access_token (c : ClientConfig) (args : TokenArgs) :
    (∀ tok, args.accessToken = some tok →
      getAccessToken c args = TokenResult.resolved tok) ∧
    (args.accessToken = none → lodashGet args.clientId c.clientId = none →
      getAccessToken c args =
        TokenResult.thrown "A clientId string is required for getAccessToken()") ∧
    (∀ cid, args.accessToken = none → lodashGet args.clientId c.clientId = some cid →
      lodashGet args.clientSecret c.clientSecret = none →
      getAccessToken c args =
        TokenResult.thrown "A clientSecret string is required for getAccessToken()") ∧
    (∀ cid csec, args.accessToken = none →
      lodashGet args.clientId c.clientId = some cid →
      lodashGet args.clientSecret c.clientSecret = some csec →
      getAccessToken c args = TokenResult.requested (accessTokenParams cid csec)) := by
  refine ⟨?_, ?_, ?_, ?_⟩
  · intro tok h
    simp [getAccessToken, h]
  · intro h hid
    simp [getAccessToken, h, hid]
  · intro cid h hid hsec
    simp [getAccessToken, h, hid, hsec]
  · intro cid csec h hid hsec
    simp [getAccessToken, h, hid, hsec]

/-- Client defaults present, as a channel-secrets record would set them. -/
def exConfigC4 : ClientConfig :=
  { clientId := some "default-id", clientSecret := some "default-secret" }

/-- C4 counterexample: with no `accessToken` and a present-but-empty
`clientId`, the effective `clientId` after the fallback is the empty
string, yet the call does not fail with a configuration error — it issues
the token request (the claim requires a failure when a credential is
"missing or empty"). -/
theorem claimC4_counterexample :
    lodashGet (some "") exConfigC4.clientId = some "" ∧
    getAccessToken exConfigC4
        { accessToken := none, clientId := some "", clientSecret := some "s" } =
      TokenResult.requested (accessTokenParams "" "s") :=
  ⟨rfl, rfl⟩

/-! ## Bounded Request Executor: the concurrency gate

`Client.constructor` (src/unnamed/part_001, lines 504-533) configures the
gate:

    const CONCURRENT_REQUEST_LIMIT = 20;
    this.concurrentRequestLimit = parseInt(args.concurrentRequestLimit, 10) || CONCURRENT_REQUEST_LIMIT;
    this._queue = taskQueue();
    this._queue.define('request', task => Client.request(task), \x7bconcurrency: this.concurrentRequestLimit\x7d);

and `Client.makeRequest` pushes every HTTP request through it
(`this._queue.push('request', ...)`, lines 916-943).

Modelled from the spec: the named-task queue itself is the
`promise-task-queue` npm dependency, whose implementation is not part of
this repository; per the spec it is a fixed-size concurrency gate — tasks
beyond the limit queue FIFO, a queued task starts only while fewer than
`concurrency` tasks are running, and a finished task leaves the running
set. -/

/-- `parseInt(args.concurrentRequestLimit, 10) || 20`: the argument models
the parse result (`none` = `NaN` for absent/unparsable input); `NaN` and
`0` are falsy, so both fall back to the default 20. -/
def clientConcurrency (arg : Option Nat) : Nat :=
  match arg with
  | some n => if n = 0 then 20 else n
  | none => 20

/-- The gate's state: submitted-but-unstarted task ids in FIFO order, and
the ids currently running (unresolved at the transport boundary). -/
structure QueueState where
  pending : List Nat
  running : List Nat
deriving DecidableEq

/-- One step of the gate: a submission enqueues; the head of the queue
starts only while the running set is below the limit; a running task
finishes. -/
inductive QueueStep (limit : Nat) : QueueState → QueueState → Prop where
  | submit (s : QueueState) (id : Nat) :
      QueueStep limit s { s with pending := s.pending ++ [id] }
  | start (s : QueueState) (id : Nat) (rest : List Nat) :
      s.pending = id :: rest → s.running.length < limit →
      QueueStep limit s { pending := rest, running := s.running ++ [id] }
  | finish (s : QueueState) (l r : List Nat) (id : Nat) :
      s.running = l ++ id :: r →
      QueueStep limit s { s with running := l ++ r }

/-- States the gate can reach from idle. -/
inductive QueueReachable (limit : Nat) : QueueState → Prop where
  | init : QueueReachable limit { pending := [], running := [] }
  | step {s t : QueueState} :
      QueueReachable limit s → QueueStep limit s t → QueueReachable limit t

/-- C9: however many requests are submitted, in every reachable state of
the gate configured with `clientConcurrency arg`, the number of
simultaneously unresolved requests at the transport boundary never exceeds
the configured limit. -/
theorem claimC9_concurrency_ceiling (arg : Option Nat) (s : QueueState)
    (h : QueueReachable (clientConcurrency arg) s) :
    s.running.length ≤ clientConcurrency arg := by
  induction h with
  | init => simp
  | step hr hstep ih =>
    cases hstep with
    | submit id => simpa using ih
    | start id rest hpend hlt => simpa using hlt
    | finish l r id hrun =>
      simp only [List.length_append] at ih ⊢
      rw [hrun] at ih
      simp only [List.length_append, List.length_cons] at ih
      omega

/-- C9 witness: a concrete run (two submissions, one start) under the
default limit 20 stays at the ceiling. -/
theorem claimC9_witness :
    ({ pending := [1], running := [0] } : QueueState).running.length ≤
      clientConcurrency none :=
  claimC9_concurrency_ceiling none _
    (QueueReachable.step
      (QueueReachable.step
        (QueueReachable.step QueueReachable.init
          (QueueStep.submit { pending := [], running := [] } 0))
        (QueueStep.submit { pending := [0], running := [] } 1))
      (QueueStep.start { pending := [0, 1], running := [] } 0 [1] rfl (by decide)))
